import Mathlib

/-!
Verification of the glitch-forge consultation-request backend.

The development shallowly embeds the parts of the Python source that the
checked properties are about:

* `app/core/security.py` — webhook signature creation and verification
  (canonical JSON serialization, HMAC-SHA256, hex digests, constant-time
  comparison with its ASCII precondition).
* `app/api/v1/endpoints/requests.py` — `create_request`, `respond_to_request`
  and the `call_agent_webhook` retry loop.
* `app/models/webhook_delivery.py` / `app/models/consultation_request.py` —
  the durable row shapes and the `is_success` predicate.
* `app/schemas/consultation_request.py` — the pydantic validation of
  `timeout_minutes`.

Machine integers are `Nat` with explicit `% 2 ^ 32` where the algorithms
reduce; timestamps are abstract instants (`Int` seconds); fallible Python
code is embedded with `Except`.
-/

namespace GlitchForge

/-! ## JSON values

Python `dict[str, Any]` payloads restricted to JSON-serializable values.
Object fields keep insertion order, as Python dicts do (and as `json.dumps`
without `sort_keys` serializes them).  Numeric payload members in this code
base are integers; floats never occur in the signed payloads. -/

inductive Json where
  | null : Json
  | bool (b : Bool) : Json
  | num (n : Int) : Json
  | str (s : String) : Json
  | arr (elems : List Json) : Json
  | obj (fields : List (String × Json)) : Json

/-! ## UTF-8 encoding

Python `str.encode()` — UTF-8 bytes of a string.  Bytes are `Nat`s below
256. -/

def utf8Char (c : Char) : List Nat :=
  let n := c.toNat
  if n < 128 then [n]
  else if n < 2048 then [192 + n / 64, 128 + n % 64]
  else if n < 65536 then [224 + n / 4096, 128 + (n / 64) % 64, 128 + n % 64]
  else [240 + n / 262144, 128 + (n / 4096) % 64, 128 + (n / 64) % 64, 128 + n % 64]

def utf8Bytes (s : String) : List Nat :=
  (s.data.map utf8Char).flatten

/-! ## Canonical JSON serialization

`json.dumps(payload, separators=(',', ':'))` with the default
`ensure_ascii=True`: no whitespace, `,` and `:` separators, `"`/`\` and the
short control escapes written as two-character escapes, every other character
outside the printable ASCII range `0x20`–`0x7E` written as a lowercase
`\uXXXX` escape (astral characters as a surrogate pair). -/

def hexDigit (n : Nat) : Char :=
  if n < 10 then Char.ofNat (48 + n) else Char.ofNat (87 + n)

def uEscape (n : Nat) : String :=
  String.mk ['\\', 'u', hexDigit (n / 4096 % 16), hexDigit (n / 256 % 16),
    hexDigit (n / 16 % 16), hexDigit (n % 16)]

def escapeJsonChar (c : Char) : String :=
  if c = '"' then "\\\""
  else if c = '\\' then "\\\\"
  else if c = '\n' then "\\n"
  else if c = '\t' then "\\t"
  else if c = '\r' then "\\r"
  else if c = (Char.ofNat 8) then "\\b"
  else if c = (Char.ofNat 12) then "\\f"
  else if 32 ≤ c.toNat ∧ c.toNat ≤ 126 then String.mk [c]
  else if c.toNat < 65536 then uEscape c.toNat
  else uEscape (55296 + (c.toNat - 65536) / 1024) ++
    uEscape (56320 + (c.toNat - 65536) % 1024)

def quoteJsonString (s : String) : String :=
  "\"" ++ (s.data.map escapeJsonChar).foldl (· ++ ·) "" ++ "\""

mutual

def jsonDumps : Json → String
  | .null => "null"
  | .bool true => "true"
  | .bool false => "false"
  | .num n => toString n
  | .str s => quoteJsonString s
  | .arr elems => "[" ++ dumpsElems elems ++ "]"
  | .obj fields => "\x7b" ++ dumpsFields fields ++ "\x7d"

def dumpsElems : List Json → String
  | [] => ""
  | [x] => jsonDumps x
  | x :: y :: rest => jsonDumps x ++ "," ++ dumpsElems (y :: rest)

def dumpsFields : List (String × Json) → String
  | [] => ""
  | [kv] => quoteJsonString kv.1 ++ ":" ++ jsonDumps kv.2
  | kv :: kv2 :: rest =>
      quoteJsonString kv.1 ++ ":" ++ jsonDumps kv.2 ++ "," ++ dumpsFields (kv2 :: rest)

end

/-! ## SHA-256 (FIPS 180-4)

`hashlib.sha256` over byte lists.  All word arithmetic is reduced modulo
`2 ^ 32` explicitly. -/

def w32 (n : Nat) : Nat := n % 4294967296

def rotr32 (n x : Nat) : Nat := (x >>> n) ||| w32 (x <<< (32 - n))

def shaCh (e f g : Nat) : Nat := (e &&& f) ^^^ ((e ^^^ 4294967295) &&& g)

def shaMaj (a b c : Nat) : Nat := (a &&& b) ^^^ (a &&& c) ^^^ (b &&& c)

def bigSigma0 (a : Nat) : Nat := rotr32 2 a ^^^ rotr32 13 a ^^^ rotr32 22 a

def bigSigma1 (e : Nat) : Nat := rotr32 6 e ^^^ rotr32 11 e ^^^ rotr32 25 e

def smallSigma0 (x : Nat) : Nat := rotr32 7 x ^^^ rotr32 18 x ^^^ (x >>> 3)

def smallSigma1 (x : Nat) : Nat := rotr32 17 x ^^^ rotr32 19 x ^^^ (x >>> 10)

def shaK : List Nat :=
  [1116352408, 1899447441, 3049323471, 3921009573,
   961987163, 1508970993, 2453635748, 2870763221,
   3624381080, 310598401, 607225278, 1426881987,
   1925078388, 2162078206, 2614888103, 3248222580,
   3835390401, 4022224774, 264347078, 604807628,
   770255983, 1249150122, 1555081692, 1996064986,
   2554220882, 2821834349, 2952996808, 3210313671,
   3336571891, 3584528711, 113926993, 338241895,
   666307205, 773529912, 1294757372, 1396182291,
   1695183700, 1986661051, 2177026350, 2456956037,
   2730485921, 2820302411, 3259730800, 3345764771,
   3516065817, 3600352804, 4094571909, 275423344,
   430227734, 506948616, 659060556, 883997877,
   958139571, 1322822218, 1537002063, 1747873779,
   1955562222, 2024104815, 2227730452, 2361852424,
   2428436474, 2756734187, 3204031479, 3329325298]

structure Sha256State where
  a : Nat
  b : Nat
  c : Nat
  d : Nat
  e : Nat
  f : Nat
  g : Nat
  h : Nat

def shaH0 : Sha256State :=
  ⟨1779033703, 3144134277, 1013904242, 2773480762,
   1359893119, 2600822924, 528734635, 1541459225⟩

/-- One compression round: the temporaries `T1`, `T2` and the state rotation
of FIPS 180-4 §6.2.2 step 3. -/
def shaRound (st : Sha256State) (k w : Nat) : Sha256State :=
  let t1 := w32 (st.h + bigSigma1 st.e + shaCh st.e st.f st.g + k + w)
  let t2 := w32 (bigSigma0 st.a + shaMaj st.a st.b st.c)
  ⟨w32 (t1 + t2), st.a, st.b, st.c, w32 (st.d + t1), st.e, st.f, st.g⟩

/-- Pack big-endian byte quadruples into 32-bit words (message block to
`W[0..15]`). -/
def bytesToWords : List Nat → List Nat
  | b0 :: b1 :: b2 :: b3 :: rest =>
      (b0 * 16777216 + b1 * 65536 + b2 * 256 + b3) :: bytesToWords rest
  | _ => []

/-- Extend the 16-word schedule by `n` further words:
`W[i] = σ1(W[i-2]) + W[i-7] + σ0(W[i-15]) + W[i-16]  (mod 2^32)`. -/
def extendSchedule : List Nat → Nat → List Nat
  | ws, 0 => ws
  | ws, n + 1 =>
      let i := ws.length
      let word := w32 (smallSigma1 (ws.getD (i - 2) 0) + ws.getD (i - 7) 0 +
        smallSigma0 (ws.getD (i - 15) 0) + ws.getD (i - 16) 0)
      extendSchedule (ws ++ [word]) n

def compressBlock (st : Sha256State) (block : List Nat) : Sha256State :=
  let ws := extendSchedule (bytesToWords block) 48
  let fin := (shaK.zip ws).foldl (fun s kw => shaRound s kw.1 kw.2) st
  ⟨w32 (st.a + fin.a), w32 (st.b + fin.b), w32 (st.c + fin.c), w32 (st.d + fin.d),
   w32 (st.e + fin.e), w32 (st.f + fin.f), w32 (st.g + fin.g), w32 (st.h + fin.h)⟩

/-- Big-endian 8-byte encoding of the message bit length. -/
def lengthBytes (bits : Nat) : List Nat :=
  [bits / 72057594037927936 % 256, bits / 281474976710656 % 256,
   bits / 1099511627776 % 256, bits / 4294967296 % 256,
   bits / 16777216 % 256, bits / 65536 % 256, bits / 256 % 256, bits % 256]

/-- Append `0x80`, enough zero bytes to reach 56 mod 64, then the 64-bit
bit length. -/
def sha256Pad (msg : List Nat) : List Nat :=
  let zeroCount := (120 - (msg.length + 1) % 64) % 64
  msg ++ [128] ++ List.replicate zeroCount 0 ++ lengthBytes (msg.length * 8)

def chunks64 (bs : List Nat) : List (List Nat) :=
  if h : bs = [] then []
  else bs.take 64 :: chunks64 (bs.drop 64)
termination_by bs.length
decreasing_by
  have : bs.length ≠ 0 := fun hl => h (List.eq_nil_of_length_eq_zero hl)
  simp only [List.length_drop]
  omega

def digestBytesOfWord (w : Nat) : List Nat :=
  [w / 16777216 % 256, w / 65536 % 256, w / 256 % 256, w % 256]

def digestBytes (st : Sha256State) : List Nat :=
  digestBytesOfWord st.a ++ digestBytesOfWord st.b ++ digestBytesOfWord st.c ++
  digestBytesOfWord st.d ++ digestBytesOfWord st.e ++ digestBytesOfWord st.f ++
  digestBytesOfWord st.g ++ digestBytesOfWord st.h

def sha256 (msg : List Nat) : List Nat :=
  digestBytes ((chunks64 (sha256Pad msg)).foldl compressBlock shaH0)

/-! ## HMAC-SHA256

Python's `hmac.new(key, msg, hashlib.sha256)`: block size 64 bytes, key
hashed when longer than a block, zero-padded, xored with the inner/outer
pads. -/

def hmacSha256 (key msg : List Nat) : List Nat :=
  let k0 := if 64 < key.length then sha256 key else key
  let k1 := k0 ++ List.replicate (64 - k0.length) 0
  let inner := sha256 (k1.map (fun b => b ^^^ 54) ++ msg)
  sha256 (k1.map (fun b => b ^^^ 92) ++ inner)

/-! ## Hex digests and the signature codec (`app/core/security.py`) -/

def byteHex (b : Nat) : String :=
  String.mk [hexDigit (b / 16 % 16), hexDigit (b % 16)]

def bytesHex : List Nat → String
  | [] => ""
  | b :: bs => byteHex b ++ bytesHex bs

/-- `create_webhook_signature(payload, secret)`:
`"sha256=" + hmac.new(secret.encode(), json.dumps(payload, separators=(',', ':')).encode(), hashlib.sha256).hexdigest()`. -/
def create_webhook_signature (payload : Json) (secret : String) : String :=
  let payload_bytes := utf8Bytes (jsonDumps payload)
  let signature := bytesHex (hmacSha256 (utf8Bytes secret) payload_bytes)
  "sha256=" ++ signature

/-- Python `str.isascii()`: every code point below 128. -/
def isAsciiStr (s : String) : Bool :=
  s.data.all fun c => decide (c.toNat < 128)

/-- `hmac.compare_digest(a, b)` on two `str` arguments: constant-time
equality, but raises `TypeError` when either string holds a non-ASCII
character.  The raise is embedded as `Except.error`; the timing behaviour is
not modelled (functionally it is equality). -/
def compare_digest (a b : String) : Except String Bool :=
  if isAsciiStr a && isAsciiStr b then .ok (a == b)
  else .error "comparing strings with non-ASCII characters is not supported"

/-- `verify_webhook_signature(payload, signature, secret)`: recompute the
signature and compare with `hmac.compare_digest`. -/
def verify_webhook_signature (payload : Json) (signature secret : String) :
    Except String Bool :=
  let expected_signature := create_webhook_signature payload secret
  compare_digest signature expected_signature

/-- Digest bytes read as a big-endian natural number (proof gadget for
counting distinct digests; not part of the embedded code). -/
def bytesToNat : List Nat → Nat
  | [] => 0
  | b :: bs => b * 256 ^ bs.length + bytesToNat bs

/-- The HMAC-SHA256 digest of the canonical encoding of the empty-object
payload under the secret consisting of `n` repeated characters, read as a
number (proof gadget for the digest-counting argument; irreducible so that
unification never tries to evaluate the hash). -/
@[irreducible] def secretDigestNat (n : Nat) : Nat :=
  bytesToNat (hmacSha256 (utf8Bytes (String.mk (List.replicate n 'a')))
    (utf8Bytes (jsonDumps (Json.obj []))))

/-! ## Data model (`app/models/*.py`)

Row identities (UUIDs) are abstracted to `Nat`; instants to `Int` seconds.
`isoformat` renders an abstract instant; only its value as a function of the
instant matters to the claims, not the calendar syntax. -/

def isoformat (t : Int) : String := toString t

def jsonOfOption : Option Json → Json
  | some v => v
  | none => Json.null

def jsonOfOptionStr : Option String → Json
  | some s => Json.str s
  | none => Json.null

/-- Python's `metadata or {}`: `None` and the (falsy) empty dict both give
`{}`; any non-empty dict passes through. -/
def dictOrEmpty : Option (List (String × Json)) → List (String × Json)
  | some (kv :: rest) => kv :: rest
  | _ => []

structure ConsultationRequest where
  id : Nat
  title : String
  description : Option String
  context : Json
  callback_webhook : Option String
  callback_secret : Option String
  state : String
  response : Option Json
  responded_by : Option Nat
  responded_at : Option Int
  callback_sent_at : Option Int
  timeout_at : Option Int
  metadata : Option (List (String × Json))

structure WebhookDelivery where
  request_id : Nat
  webhook_url : String
  payload : Json
  status_code : Option Nat
  response_body : Option String
  error : Option String
  retry_count : Nat

/-- `WebhookDelivery.is_success`: `status_code is not None and 200 <= status_code < 300`. -/
def WebhookDelivery.is_success (d : WebhookDelivery) : Bool :=
  match d.status_code with
  | some st => decide (200 ≤ st) && decide (st < 300)
  | none => false

/-- `WebhookDelivery.is_retriable`: network errors and 5xx are retriable,
4xx and success are not. -/
def WebhookDelivery.is_retriable (d : WebhookDelivery) : Bool :=
  match d.status_code with
  | none => true
  | some st => decide (500 ≤ st) && decide (st < 600)

/-! ## Schemas (`app/schemas/consultation_request.py`) -/

structure HumanResponse where
  decision : String
  comment : Option String

/-- The pydantic pattern `^(approve|reject|request_changes)$` on
`HumanResponse.decision`. -/
def validDecision (d : String) : Bool :=
  d == "approve" || d == "reject" || d == "request_changes"

structure ConsultationRequestCreate where
  title : String
  description : Option String
  context : Json
  callback_webhook : Option String
  callback_secret : Option String
  timeout_minutes : Option Int
  metadata : Option (List (String × Json))

/-- Validation of the `timeout_minutes` field,
`Optional[int] = Field(1440, ge=1, le=10080)`: an omitted field defaults to
`1440`, an explicit `null` stays `None`, and a provided integer must lie in
`1..10080`.  The outer `Option` is presence of the field in the request
body, the inner one nullability. -/
def validate_timeout_minutes : Option (Option Int) → Except String (Option Int)
  | none => .ok (some 1440)
  | some none => .ok none
  | some (some v) =>
      if 1 ≤ v ∧ v ≤ 10080 then .ok (some v)
      else .error "validation error for timeout_minutes"

/-! ## Endpoints (`app/api/v1/endpoints/requests.py`) -/

structure HttpError where
  status_code : Nat
  detail : String

/-- `timeout_at = None; if request_data.timeout_minutes: timeout_at =
datetime.utcnow() + timedelta(minutes=request_data.timeout_minutes)`.
Python truthiness makes both `None` and `0` leave `timeout_at` unset. -/
def create_request_timeout_at (timeout_minutes : Option Int) (now : Int) : Option Int :=
  match timeout_minutes with
  | none => none
  | some m => if m = 0 then none else some (now + m * 60)

/-- `create_request`: build the `ConsultationRequest` row in state
`pending` from validated input data. -/
def create_request (request_data : ConsultationRequestCreate) (newId : Nat)
    (now : Int) : ConsultationRequest :=
  { id := newId
    title := request_data.title
    description := request_data.description
    context := request_data.context
    callback_webhook := request_data.callback_webhook
    callback_secret := request_data.callback_secret
    state := "pending"
    response := none
    responded_by := none
    responded_at := none
    callback_sent_at := none
    timeout_at := create_request_timeout_at request_data.timeout_minutes now
    metadata := some (dictOrEmpty request_data.metadata) }

structure RespondOutcome where
  request : ConsultationRequest
  error : Option HttpError
  dispatched : Bool

/-- `respond_to_request` on the fetched request row (the 404 lookup branch
is outside this embedding): reject with the conflict `HTTPException` when
the state is not `pending`, otherwise store the response object, mark the
responder and instant, move to `responded`, and schedule the webhook
background task when a `callback_webhook` is configured.  `request` holds
the row as stored after the call. -/
def respond_to_request (request : ConsultationRequest) (response : HumanResponse)
    (current_user : Nat) (now : Int) : RespondOutcome :=
  if request.state ≠ "pending" then
    { request := request
      error := some ⟨400, "Request is already " ++ request.state ++ ", cannot respond"⟩
      dispatched := false }
  else
    let updated := { request with
      response := some (Json.obj
        [("decision", Json.str response.decision),
         ("comment", jsonOfOptionStr response.comment),
         ("responder_id", Json.str (toString current_user)),
         ("responded_at", Json.str (isoformat now))])
      responded_by := some current_user
      responded_at := some now
      state := "responded" }
    { request := updated
      error := none
      dispatched := updated.callback_webhook.isSome }

/-! ## Webhook delivery (`call_agent_webhook`) -/

/-- What one `client.post` observes from the network: an HTTP response or a
network-level exception. -/
inductive HttpOutcome where
  | response (status : Nat) (body : String) : HttpOutcome
  | netError (msg : String) : HttpOutcome

/-- The request actually posted on one attempt: url, `json=payload`, and
headers. -/
structure HttpPost where
  url : String
  body : Json
  headers : List (String × String)

/-- An outcome which the attempt records as a failure: a non-2xx response or
a network-level exception. -/
def HttpOutcome.isFailure : HttpOutcome → Prop
  | .response st _ => ¬(200 ≤ st ∧ st ≤ 299)
  | .netError _ => True

/-- Message of the `httpx.HTTPStatusError` raised by
`response.raise_for_status()` on a non-2xx status.  The exact reason phrase
httpx interpolates is abstracted; the claims depend only on which attempts
raise, never on this text. -/
def statusErrorText (status : Nat) (url : String) : String :=
  "HTTP status error " ++ toString status ++ " for url " ++ url

/-- The body of the `try` block after the post: `response.raise_for_status()`
turns any non-2xx response into an exception, and a network-level failure is
already one; a 2xx response yields its status and text. -/
def tryPostOutcome (url : String) (o : HttpOutcome) : Except String (Nat × String) :=
  match o with
  | .response st body =>
      if 200 ≤ st ∧ st ≤ 299 then .ok (st, body) else .error (statusErrorText st url)
  | .netError msg => .error msg

def maxRetries : Nat := 3

/-- The `for attempt in range(max_retries)` loop, one list element per
remaining attempt index.  Each iteration posts the fixed payload; on
success it logs the success row and moves the request to `callback_sent`
(with `callback_sent_at`); on an exception it logs the failure row —
`status_code=None`, truncated error — then retries unless this was the
final attempt, which moves the request to `callback_failed`.  Returns the
stored request, the delivery rows and the posts sent, all in order. -/
def attemptLoop (req0 : ConsultationRequest) (url : String) (payload : Json)
    (headers : List (String × String)) (env : Nat → HttpPost → HttpOutcome)
    (now : Int) : List Nat → ConsultationRequest × List WebhookDelivery × List HttpPost
  | [] => (req0, [], [])
  | attempt :: rest =>
    let post : HttpPost := ⟨url, payload, headers⟩
    match tryPostOutcome url (env attempt post) with
    | .ok (st, body) =>
        ({ req0 with state := "callback_sent", callback_sent_at := some now },
         [{ request_id := req0.id, webhook_url := url, payload := payload,
            status_code := some st, response_body := some (body.take 1000),
            error := none, retry_count := attempt }],
         [post])
    | .error msg =>
        let row : WebhookDelivery :=
          { request_id := req0.id, webhook_url := url, payload := payload,
            status_code := none, response_body := none,
            error := some (msg.take 1000), retry_count := attempt }
        if attempt < maxRetries - 1 then
          let next := attemptLoop req0 url payload headers env now rest
          (next.1, row :: next.2.1, post :: next.2.2)
        else
          ({ req0 with state := "callback_failed" }, [row], [post])

/-- The payload, built once before the attempt loop:
`{"event": "request.responded", "request_id": str(request.id),
"metadata": request.metadata or {}, "response": request.response}`. -/
def buildPayload (r : ConsultationRequest) : Json :=
  Json.obj
    [("event", Json.str "request.responded"),
     ("request_id", Json.str (toString r.id)),
     ("metadata", Json.obj (dictOrEmpty r.metadata)),
     ("response", jsonOfOption r.response)]

/-- The headers, built once before the attempt loop: `Content-Type`, plus
`X-Webhook-Signature` when a `callback_secret` is configured. -/
def webhookHeaders (r : ConsultationRequest) (payload : Json) : List (String × String) :=
  ("Content-Type", "application/json") ::
    match r.callback_secret with
    | some s => [("X-Webhook-Signature", create_webhook_signature payload s)]
    | none => []

/-- The fixed post every attempt of one delivery sequence sends. -/
def webhookPost (r : ConsultationRequest) (url : String) : HttpPost :=
  ⟨url, buildPayload r, webhookHeaders r (buildPayload r)⟩

/-- `call_agent_webhook(request_id, db)`: refetch the request (here: the
fetched row or `none`), return early when it is gone or has no webhook,
otherwise build payload and headers once and run the attempt loop.  Returns
the stored request, the `WebhookDelivery` rows and the posts sent. -/
def call_agent_webhook (request : Option ConsultationRequest)
    (env : Nat → HttpPost → HttpOutcome) (now : Int) :
    Option ConsultationRequest × List WebhookDelivery × List HttpPost :=
  match request with
  | none => (none, [], [])
  | some r =>
    match r.callback_webhook with
    | none => (some r, [], [])
    | some url =>
      let payload := buildPayload r
      let headers := webhookHeaders r payload
      let out := attemptLoop r url payload headers env now (List.range maxRetries)
      (some out.1, out.2.1, out.2.2)

/-! ## Timeout sweeper entry point -/

inductive ExpireResult where
  | success : ExpireResult
  | alreadyResponded : ExpireResult
deriving DecidableEq

/-- Modelled from the spec: the repository ships no `expire` operation under
`src/` (the timeout sweeper is an external collaborator); §4.2 of the spec
requires the lifecycle to expose a single operation
`expire(request) -> success | already-responded`, taking the side
transition `pending → timeout` only while the request is still `pending`. -/
def expire (request : ConsultationRequest) : ConsultationRequest × ExpireResult :=
  if request.state = "pending" then
    ({ request with state := "timeout" }, .success)
  else
    (request, .alreadyResponded)

/-! ## Sample values used by the concrete witnesses -/

def sampleRequest : ConsultationRequest :=
  { id := 7
    title := "Review High-Risk Code Changes"
    description := none
    context := Json.obj []
    callback_webhook := some "https://agent.example/resume"
    callback_secret := none
    state := "pending"
    response := some (Json.obj [("decision", Json.str "approve")])
    responded_by := none
    responded_at := none
    callback_sent_at := none
    timeout_at := none
    metadata := none }

def sampleCreate : ConsultationRequestCreate :=
  { title := "Review High-Risk Code Changes"
    description := none
    context := Json.obj []
    callback_webhook := none
    callback_secret := none
    timeout_minutes := some 1440
    metadata := none }

def sampleEnvFail : Nat → HttpPost → HttpOutcome :=
  fun _ _ => .netError "connection refused"

def sampleEnvSecond : Nat → HttpPost → HttpOutcome :=
  fun i _ => if i = 0 then .netError "connection refused" else .response 200 "ok"

/-! # Theorems -/

/-! ## Request lifecycle -/

/-- C1: for every consultation request whose state is not `pending`,
`respond_to_request` fails with the conflict `HTTPException` whose detail
names the request's current state, and the stored row (hence its `response`
field and state) is unchanged; and only a request in state `pending` is ever
transitioned to `responded`. -/
theorem C1_respond_conflict (request : ConsultationRequest) (response : HumanResponse)
    (current_user : Nat) (now : Int) (h : request.state ≠ "pending") :
    (respond_to_request request response current_user now).error =
      some ⟨400, "Request is already " ++ request.state ++ ", cannot respond"⟩ ∧
    (respond_to_request request response current_user now).request = request ∧
    (∀ (r2 : ConsultationRequest) (resp2 : HumanResponse) (u2 : Nat) (t2 : Int),
      (respond_to_request r2 resp2 u2 t2).error = none →
        r2.state = "pending" ∧
        (respond_to_request r2 resp2 u2 t2).request.state = "responded") := by
  refine ⟨by simp [respond_to_request, h], by simp [respond_to_request, h], ?_⟩
  intro r2 resp2 u2 t2 herr
  by_cases h2 : r2.state = "pending"
  · exact ⟨h2, by simp [respond_to_request, h2]⟩
  · exact absurd herr (by simp [respond_to_request, h2])

theorem C1_respond_conflict_witness :
    (respond_to_request { sampleRequest with state := "responded" }
        ⟨"approve", none⟩ 1 0).error =
      some ⟨400, "Request is already " ++ "responded" ++ ", cannot respond"⟩ ∧
    (respond_to_request { sampleRequest with state := "responded" }
        ⟨"approve", none⟩ 1 0).request = { sampleRequest with state := "responded" } :=
  ⟨(C1_respond_conflict _ _ 1 0 (by decide)).1,
   (C1_respond_conflict _ _ 1 0 (by decide)).2.1⟩

/-- C8: `expire` on a still-`pending` request returns success and moves it
to the terminal state `timeout`; a subsequent `respond_to_request` fails
with the conflict error naming `timeout` and leaves the row unchanged; and
`expire` on a non-`pending` request is the `already-responded` no-op. -/
theorem C8_expire_then_respond (request : ConsultationRequest) (response : HumanResponse)
    (current_user : Nat) (now : Int) (h : request.state = "pending") :
    (expire request).2 = ExpireResult.success ∧
    (expire request).1.state = "timeout" ∧
    (respond_to_request (expire request).1 response current_user now).error =
      some ⟨400, "Request is already timeout, cannot respond"⟩ ∧
    (respond_to_request (expire request).1 response current_user now).request =
      (expire request).1 ∧
    (∀ r2 : ConsultationRequest, r2.state ≠ "pending" →
      expire r2 = (r2, ExpireResult.alreadyResponded)) := by
  refine ⟨by simp [expire, h], by simp [expire, h], ?_, ?_, ?_⟩
  · simp [expire, h, respond_to_request]
  · simp [expire, h, respond_to_request]
  · intro r2 h2; simp [expire, h2]

theorem C8_expire_then_respond_witness :
    (expire sampleRequest).2 = ExpireResult.success ∧
    (expire sampleRequest).1.state = "timeout" ∧
    (respond_to_request (expire sampleRequest).1 ⟨"approve", none⟩ 1 0).error =
      some ⟨400, "Request is already timeout, cannot respond"⟩ :=
  ⟨(C8_expire_then_respond sampleRequest ⟨"approve", none⟩ 1 0 rfl).1,
   (C8_expire_then_respond sampleRequest ⟨"approve", none⟩ 1 0 rfl).2.1,
   (C8_expire_then_respond sampleRequest ⟨"approve", none⟩ 1 0 rfl).2.2.1⟩

/-- C10: an omitted `timeout_minutes` defaults to `1440`, making
`timeout_at` creation time plus 24 hours (86400 seconds); `timeout_at` is
left unset exactly when the caller explicitly passed `null` (a zero never
validates); and an explicitly provided value is accepted exactly in the
range `1..10080`. -/
theorem C10_timeout_minutes (now : Int) (newId : Nat) (d : ConsultationRequestCreate) :
    validate_timeout_minutes none = .ok (some 1440) ∧
    (d.timeout_minutes = some 1440 →
      (create_request d newId now).timeout_at = some (now + 86400)) ∧
    (∀ inp, validate_timeout_minutes inp = .ok d.timeout_minutes →
      ((create_request d newId now).timeout_at = none ↔ inp = some none)) ∧
    (∀ v : Int, (∃ tm, validate_timeout_minutes (some (some v)) = .ok tm) ↔
      (1 ≤ v ∧ v ≤ 10080)) := by
  refine ⟨rfl, ?_, ?_, ?_⟩
  · intro h
    simp [create_request, create_request_timeout_at, h]
  · intro inp hv
    match inp with
    | none =>
        simp only [validate_timeout_minutes, Except.ok.injEq] at hv
        simp [create_request, create_request_timeout_at, hv.symm]
    | some none =>
        simp only [validate_timeout_minutes, Except.ok.injEq] at hv
        simp [create_request, create_request_timeout_at, hv.symm]
    | some (some v) =>
        simp only [validate_timeout_minutes] at hv
        by_cases hr : 1 ≤ v ∧ v ≤ 10080
        · rw [if_pos hr] at hv
          rw [Except.ok.injEq] at hv
          have hv0 : v ≠ 0 := by omega
          simp [create_request, create_request_timeout_at, hv.symm, hv0]
        · rw [if_neg hr] at hv
          exact absurd hv (by simp)
  · intro v
    constructor
    · rintro ⟨tm, htm⟩
      by_contra hr
      simp only [validate_timeout_minutes, if_neg hr] at htm
      exact Except.noConfusion htm
    · intro hr
      exact ⟨some v, by simp [validate_timeout_minutes, hr]⟩

theorem C10_timeout_minutes_witness :
    validate_timeout_minutes none = .ok (some 1440) ∧
    (create_request sampleCreate 1 0).timeout_at = some (0 + 86400) :=
  ⟨(C10_timeout_minutes 0 1 sampleCreate).1,
   (C10_timeout_minutes 0 1 sampleCreate).2.1 rfl⟩

/-! ## Webhook delivery loop -/

/-- A failure outcome makes the `try` body raise: the attempt is recorded
as a failure. -/
theorem tryPost_fail (url : String) {o : HttpOutcome} (h : o.isFailure) :
    ∃ msg, tryPostOutcome url o = .error msg := by
  cases o with
  | response st body =>
      exact ⟨statusErrorText st url, by
        simp only [HttpOutcome.isFailure] at h
        simp [tryPostOutcome, if_neg h]⟩
  | netError msg => exact ⟨msg, rfl⟩

/-- Every post the attempt loop sends is the fixed one built before the
loop. -/
theorem attemptLoop_posts (req0 : ConsultationRequest) (url : String) (payload : Json)
    (headers : List (String × String)) (env : Nat → HttpPost → HttpOutcome)
    (now : Int) (attempts : List Nat) :
    ∀ p ∈ (attemptLoop req0 url payload headers env now attempts).2.2,
      p = ⟨url, payload, headers⟩ := by
  induction attempts with
  | nil => simp [attemptLoop]
  | cons a rest ih =>
      intro p hp
      simp only [attemptLoop] at hp
      rcases hto : tryPostOutcome url (env a ⟨url, payload, headers⟩) with msg | stb
      · rw [hto] at hp
        simp only at hp
        by_cases hl : a < maxRetries - 1
        · rw [if_pos hl] at hp
          rcases List.mem_cons.mp hp with h1 | h2
          · exact h1
          · exact ih p h2
        · rw [if_neg hl] at hp
          simpa using hp
      · rw [hto] at hp
        simpa using hp

/-- C2: when every attempt of the delivery sequence fails, exactly three
`WebhookDelivery` rows are created, with `retry_count` 0, 1, 2, none of
them a success, and the request ends in state `callback_failed`. -/
theorem C2_all_attempts_fail (r : ConsultationRequest) (url : String)
    (env : Nat → HttpPost → HttpOutcome) (now : Int)
    (hw : r.callback_webhook = some url)
    (H : ∀ a p, (env a p).isFailure) :
    (call_agent_webhook (some r) env now).1 =
      some { r with state := "callback_failed" } ∧
    ((call_agent_webhook (some r) env now).2.1).map WebhookDelivery.retry_count =
      [0, 1, 2] ∧
    (∀ d ∈ (call_agent_webhook (some r) env now).2.1, d.is_success = false) := by
  obtain ⟨m0, h0⟩ := tryPost_fail url (H 0 ⟨url, buildPayload r, webhookHeaders r (buildPayload r)⟩)
  obtain ⟨m1, h1⟩ := tryPost_fail url (H 1 ⟨url, buildPayload r, webhookHeaders r (buildPayload r)⟩)
  obtain ⟨m2, h2⟩ := tryPost_fail url (H 2 ⟨url, buildPayload r, webhookHeaders r (buildPayload r)⟩)
  have hrange : List.range maxRetries = [0, 1, 2] := rfl
  refine ⟨?_, ?_, ?_⟩ <;>
    simp [call_agent_webhook, hw, hrange, attemptLoop, h0, h1, h2, maxRetries,
      WebhookDelivery.is_success]

theorem C2_all_attempts_fail_witness :
    (call_agent_webhook (some sampleRequest) sampleEnvFail 0).1 =
      some { sampleRequest with state := "callback_failed" } ∧
    ((call_agent_webhook (some sampleRequest) sampleEnvFail 0).2.1).map
      WebhookDelivery.retry_count = [0, 1, 2] :=
  ⟨(C2_all_attempts_fail sampleRequest _ sampleEnvFail 0 rfl fun _ _ => trivial).1,
   (C2_all_attempts_fail sampleRequest _ sampleEnvFail 0 rfl fun _ _ => trivial).2.1⟩

/-- C3: when attempt `k` is the first to receive a 2xx response, the loop
stops there: exactly `k + 1` rows exist, the last is the success row with
the 2xx status, the response body truncated to 1000 characters and
`retry_count = k`, the request moves to `callback_sent` and
`callback_sent_at` is set. -/
theorem C3_first_success (r : ConsultationRequest) (url : String)
    (env : Nat → HttpPost → HttpOutcome) (now : Int) (k st : Nat) (body : String)
    (hw : r.callback_webhook = some url)
    (hk : k < 3)
    (hfail : ∀ i, i < k → (env i (webhookPost r url)).isFailure)
    (hsucc : env k (webhookPost r url) = .response st body)
    (h2xx : 200 ≤ st ∧ st ≤ 299) :
    ((call_agent_webhook (some r) env now).2.1).length = k + 1 ∧
    ((call_agent_webhook (some r) env now).2.1).getLast? = some
      { request_id := r.id, webhook_url := url, payload := buildPayload r,
        status_code := some st, response_body := some (body.take 1000),
        error := none, retry_count := k } ∧
    (call_agent_webhook (some r) env now).1 =
      some { r with state := "callback_sent", callback_sent_at := some now } := by
  have hrange : List.range maxRetries = [0, 1, 2] := rfl
  have hsucc' : tryPostOutcome url (env k (webhookPost r url)) = .ok (st, body) := by
    rw [hsucc]; simp [tryPostOutcome, if_pos h2xx]
  interval_cases k
  · rw [webhookPost] at hsucc'
    refine ⟨?_, ?_, ?_⟩ <;>
      simp [call_agent_webhook, hw, hrange, attemptLoop, hsucc']
  · obtain ⟨m0, h0⟩ := tryPost_fail url (hfail 0 (by norm_num))
    rw [webhookPost] at hsucc' h0
    refine ⟨?_, ?_, ?_⟩ <;>
      simp [call_agent_webhook, hw, hrange, attemptLoop, h0, hsucc', maxRetries]
  · obtain ⟨m0, h0⟩ := tryPost_fail url (hfail 0 (by norm_num))
    obtain ⟨m1, h1⟩ := tryPost_fail url (hfail 1 (by norm_num))
    rw [webhookPost] at hsucc' h0 h1
    refine ⟨?_, ?_, ?_⟩ <;>
      simp [call_agent_webhook, hw, hrange, attemptLoop, h0, h1, hsucc', maxRetries]

theorem C3_first_success_witness :
    ((call_agent_webhook (some sampleRequest) sampleEnvSecond 0).2.1).length = 1 + 1 ∧
    ((call_agent_webhook (some sampleRequest) sampleEnvSecond 0).2.1).getLast? = some
      { request_id := sampleRequest.id, webhook_url := "https://agent.example/resume",
        payload := buildPayload sampleRequest,
        status_code := some 200, response_body := some (String.take "ok" 1000),
        error := none, retry_count := 1 } ∧
    (call_agent_webhook (some sampleRequest) sampleEnvSecond 0).1 =
      some { sampleRequest with state := "callback_sent", callback_sent_at := some 0 } :=
  C3_first_success sampleRequest "https://agent.example/resume" sampleEnvSecond 0 1 200 "ok"
    rfl (by norm_num)
    (by intro i hi
        interval_cases i
        simp [sampleEnvSecond, HttpOutcome.isFailure])
    (by simp [sampleEnvSecond])
    (by norm_num)

/-- C5: the payload is built once before the loop, every attempt posts that
same payload, any two attempts of one sequence post equal payloads, and the
payload has exactly the shape
`{event, request_id, metadata, response}`. -/
theorem C5_fixed_payload (r : ConsultationRequest) (url : String)
    (env : Nat → HttpPost → HttpOutcome) (now : Int)
    (hw : r.callback_webhook = some url) :
    (∀ p ∈ (call_agent_webhook (some r) env now).2.2, p.body = buildPayload r) ∧
    (∀ p ∈ (call_agent_webhook (some r) env now).2.2,
      ∀ q ∈ (call_agent_webhook (some r) env now).2.2, p.body = q.body) ∧
    buildPayload r = Json.obj
      [("event", Json.str "request.responded"),
       ("request_id", Json.str (toString r.id)),
       ("metadata", Json.obj (dictOrEmpty r.metadata)),
       ("response", jsonOfOption r.response)] := by
  have hmem : ∀ p ∈ (call_agent_webhook (some r) env now).2.2,
      p = (⟨url, buildPayload r, webhookHeaders r (buildPayload r)⟩ : HttpPost) := by
    intro p hp
    simp only [call_agent_webhook, hw] at hp
    exact attemptLoop_posts _ _ _ _ _ _ _ p hp
  refine ⟨?_, ?_, rfl⟩
  · intro p hp; rw [hmem p hp]
  · intro p hp q hq; rw [hmem p hp, hmem q hq]

theorem C5_fixed_payload_witness :
    buildPayload sampleRequest = Json.obj
      [("event", Json.str "request.responded"),
       ("request_id", Json.str (toString sampleRequest.id)),
       ("metadata", Json.obj (dictOrEmpty sampleRequest.metadata)),
       ("response", jsonOfOption sampleRequest.response)] :=
  (C5_fixed_payload sampleRequest "https://agent.example/resume" sampleEnvFail 0 rfl).2.2

/-- C4: the code records `status_code=None` on every failure row, even when
an HTTP response (here a 500) was received — the generic `except` swallows
the `HTTPStatusError` and never stores the response's status.  Against an
endpoint that always answers 500, the three failure rows carry
`status_code=None`, not 500, contradicting both the claim and the
`WebhookDelivery` model documentation. -/
theorem C4_failure_rows_drop_status :
    ((call_agent_webhook (some sampleRequest)
        (fun _ _ => .response 500 "Internal Server Error") 0).2.1).map
      WebhookDelivery.status_code = [none, none, none] ∧
    ((call_agent_webhook (some sampleRequest)
        (fun _ _ => .response 500 "Internal Server Error") 0).2.1).map
      WebhookDelivery.retry_count = [0, 1, 2] ∧
    (call_agent_webhook (some sampleRequest)
        (fun _ _ => .response 500 "Internal Server Error") 0).1 =
      some { sampleRequest with state := "callback_failed" } := by
  refine ⟨?_, ?_, ?_⟩ <;> rfl

/-! ## Signature codec -/

theorem string_data_append (a b : String) : (a ++ b).data = a.data ++ b.data := rfl

theorem isAsciiStr_append (a b : String) :
    isAsciiStr (a ++ b) = (isAsciiStr a && isAsciiStr b) := by
  simp [isAsciiStr, string_data_append, List.all_append]

theorem hexDigit_ascii : ∀ n, n < 16 → (hexDigit n).toNat < 128 := by decide

theorem byteHex_ascii (b : Nat) : isAsciiStr (byteHex b) = true := by
  simp only [byteHex, isAsciiStr, List.all_cons, List.all_nil, Bool.and_true,
    Bool.and_eq_true, decide_eq_true_eq]
  exact ⟨hexDigit_ascii _ (Nat.mod_lt _ (by norm_num)),
    hexDigit_ascii _ (Nat.mod_lt _ (by norm_num))⟩

theorem bytesHex_ascii (bs : List Nat) : isAsciiStr (bytesHex bs) = true := by
  induction bs with
  | nil => rfl
  | cons b rest ih => simp [bytesHex, isAsciiStr_append, byteHex_ascii, ih]

/-- Signatures produced by `create_webhook_signature` are ASCII-only
(`"sha256="` plus lowercase hex), so `hmac.compare_digest` never raises on
the recomputed side. -/
theorem create_webhook_signature_ascii (payload : Json) (secret : String) :
    isAsciiStr (create_webhook_signature payload secret) = true := by
  simp [create_webhook_signature, isAsciiStr_append, bytesHex_ascii]
  decide

/-- Verification succeeds exactly on the recomputed signature. -/
theorem verify_ok_true_iff (payload : Json) (sig secret : String) :
    verify_webhook_signature payload sig secret = .ok true ↔
      sig = create_webhook_signature payload secret := by
  have ha := create_webhook_signature_ascii payload secret
  unfold verify_webhook_signature compare_digest
  by_cases hsig : isAsciiStr sig
  · simp [hsig, ha]
  · rw [Bool.not_eq_true] at hsig
    simp only [hsig, Bool.false_and, if_false]
    constructor
    · intro h; exact Except.noConfusion h
    · intro h
      rw [h] at hsig
      rw [ha] at hsig
      exact Bool.noConfusion hsig

/-- C6 (amended): the round trip always verifies —
`verify(sign(payload, secret), payload, secret)` returns `True` for every
payload and secret — and verification returns `True` exactly when the
presented signature equals the signature of that payload under that secret;
a different secret or a modified payload is rejected precisely when it
yields a different HMAC signature (the overwhelmingly likely case, but not
a universal mathematical guarantee). -/
theorem C6_sign_verify_roundtrip (payload : Json) (sig secret : String) :
    verify_webhook_signature payload (create_webhook_signature payload secret)
      secret = .ok true ∧
    (verify_webhook_signature payload sig secret = .ok true ↔
      sig = create_webhook_signature payload secret) :=
  ⟨(verify_ok_true_iff payload _ secret).mpr rfl,
   verify_ok_true_iff payload sig secret⟩

/-- C7 (amended): verification is a pure function of its inputs — it
returns `.ok (sig == expected)` whenever the presented signature string is
ASCII-only, and raises (`.error`, the `TypeError` of `hmac.compare_digest`)
exactly when the presented signature holds a non-ASCII character. -/
theorem C7_verify_characterization (payload : Json) (sig secret : String) :
    verify_webhook_signature payload sig secret =
      (if isAsciiStr sig then
        .ok (sig == create_webhook_signature payload secret)
      else
        .error "comparing strings with non-ASCII characters is not supported") := by
  have ha := create_webhook_signature_ascii payload secret
  unfold verify_webhook_signature compare_digest
  by_cases hsig : isAsciiStr sig
  · simp [hsig, ha]
  · rw [Bool.not_eq_true] at hsig
    simp [hsig]

/-- C7 counterexample: `verify_webhook_signature` is not total — a
signature string holding a non-ASCII character makes
`hmac.compare_digest` raise `TypeError` instead of returning `False`. -/
theorem C7_counterexample :
    verify_webhook_signature (Json.obj []) "é" "secret" =
      .error "comparing strings with non-ASCII characters is not supported" := by
  have h : isAsciiStr "é" = false := by decide
  unfold verify_webhook_signature compare_digest
  simp [h]

/-! ## Counting digests: HMAC-SHA256 has at most `2 ^ 256` values -/

theorem digestBytesOfWord_lt (w : Nat) : ∀ b ∈ digestBytesOfWord w, b < 256 := by
  intro b hb
  simp only [digestBytesOfWord, List.mem_cons, List.not_mem_nil, or_false] at hb
  rcases hb with h | h | h | h <;> omega

theorem sha256_length (msg : List Nat) : (sha256 msg).length = 32 := by
  simp [sha256, digestBytes, digestBytesOfWord]

theorem sha256_lt (msg : List Nat) : ∀ b ∈ sha256 msg, b < 256 := by
  intro b hb
  simp only [sha256, digestBytes, List.mem_append] at hb
  rcases hb with ((((((h | h) | h) | h) | h) | h) | h) | h <;>
    exact digestBytesOfWord_lt _ b h

theorem hmacSha256_length (key msg : List Nat) : (hmacSha256 key msg).length = 32 := by
  simp only [hmacSha256]
  exact sha256_length _

theorem hmacSha256_lt (key msg : List Nat) : ∀ b ∈ hmacSha256 key msg, b < 256 := by
  simp only [hmacSha256]
  exact sha256_lt _

theorem bytesToNat_lt (bs : List Nat) (h : ∀ b ∈ bs, b < 256) :
    bytesToNat bs < 256 ^ bs.length := by
  induction bs with
  | nil => simp [bytesToNat]
  | cons b rest ih =>
      have hb : b < 256 := h b (List.mem_cons_self _ _)
      have hr : bytesToNat rest < 256 ^ rest.length :=
        ih fun x hx => h x (List.mem_cons_of_mem _ hx)
      simp only [bytesToNat, List.length_cons]
      calc b * 256 ^ rest.length + bytesToNat rest
          < b * 256 ^ rest.length + 256 ^ rest.length := by omega
        _ = (b + 1) * 256 ^ rest.length := by ring
        _ ≤ 256 * 256 ^ rest.length := Nat.mul_le_mul_right _ (by omega)
        _ = 256 ^ (rest.length + 1) := by ring

theorem bytesToNat_inj : ∀ bs cs : List Nat, bs.length = cs.length →
    (∀ b ∈ bs, b < 256) → (∀ b ∈ cs, b < 256) →
    bytesToNat bs = bytesToNat cs → bs = cs
  | [], [], _, _, _, _ => rfl
  | [], _ :: _, hlen, _, _, _ => by simp at hlen
  | _ :: _, [], hlen, _, _, _ => by simp at hlen
  | b :: bs, c :: cs, hlen, hb, hc, h => by
      have hlen' : bs.length = cs.length := by simpa using hlen
      have hbr : bytesToNat bs < 256 ^ bs.length :=
        bytesToNat_lt bs fun x hx => hb x (List.mem_cons_of_mem _ hx)
      have hcr : bytesToNat cs < 256 ^ cs.length :=
        bytesToNat_lt cs fun x hx => hc x (List.mem_cons_of_mem _ hx)
      simp only [bytesToNat] at h
      rw [hlen'] at h hbr
      have htail : bytesToNat bs = bytesToNat cs := by
        have h1 : (b * 256 ^ cs.length + bytesToNat bs) % 256 ^ cs.length =
            (c * 256 ^ cs.length + bytesToNat cs) % 256 ^ cs.length :=
          congrArg (fun n => n % 256 ^ cs.length) h
        rw [Nat.mul_add_mod', Nat.mul_add_mod', Nat.mod_eq_of_lt hbr,
          Nat.mod_eq_of_lt hcr] at h1
        exact h1
      rw [htail] at h
      have hhead : b = c :=
        Nat.eq_of_mul_eq_mul_right (pow_pos (by norm_num) _) (Nat.add_right_cancel h)
      rw [hhead, bytesToNat_inj bs cs hlen'
        (fun x hx => hb x (List.mem_cons_of_mem _ hx))
        (fun x hx => hc x (List.mem_cons_of_mem _ hx)) htail]

theorem replicateStr_inj {i j : Nat}
    (h : String.mk (List.replicate i 'a') = String.mk (List.replicate j 'a')) :
    i = j := by
  have h1 : List.replicate i 'a' = List.replicate j 'a' := congrArg String.data h
  have h2 := congrArg List.length h1
  simpa using h2

theorem secretDigestNat_lt (n : Nat) : secretDigestNat n < 2 ^ 256 := by
  have hlt := bytesToNat_lt _
    (hmacSha256_lt (utf8Bytes (String.mk (List.replicate n 'a')))
      (utf8Bytes (jsonDumps (Json.obj []))))
  rw [hmacSha256_length] at hlt
  simp only [secretDigestNat]
  calc bytesToNat (hmacSha256 (utf8Bytes (String.mk (List.replicate n 'a')))
        (utf8Bytes (jsonDumps (Json.obj []))))
      < 256 ^ 32 := hlt
    _ = 2 ^ 256 := by
      nth_rewrite 1 [show (256 : Nat) = 2 ^ 8 from rfl]
      rw [← pow_mul]

theorem secretSig_eq_of_digest_eq {m n : Nat}
    (h : secretDigestNat m = secretDigestNat n) :
    create_webhook_signature (Json.obj []) (String.mk (List.replicate m 'a')) =
      create_webhook_signature (Json.obj []) (String.mk (List.replicate n 'a')) := by
  have h' : hmacSha256 (utf8Bytes (String.mk (List.replicate m 'a')))
        (utf8Bytes (jsonDumps (Json.obj []))) =
      hmacSha256 (utf8Bytes (String.mk (List.replicate n 'a')))
        (utf8Bytes (jsonDumps (Json.obj []))) := by
    simp only [secretDigestNat] at h
    exact bytesToNat_inj _ _ (by rw [hmacSha256_length, hmacSha256_length])
      (hmacSha256_lt _ _) (hmacSha256_lt _ _) h
  simp only [create_webhook_signature]
  rw [h']

/-- C6 counterexample: the clause "verifying with any different secret
fails" is not a theorem of the code.  `create_webhook_signature` has at
most `2 ^ 256` possible outputs while secrets are unbounded, so by
pigeonhole two distinct secrets sign the payload `{}` identically, and the
signature produced under one verifies under the other. -/
theorem C6_counterexample :
    ∃ s s2 : String, s ≠ s2 ∧
      verify_webhook_signature (Json.obj [])
        (create_webhook_signature (Json.obj []) s) s2 = .ok true := by
  have hcard : Fintype.card (Fin (2 ^ 256)) < Fintype.card (Fin (2 ^ 256 + 1)) := by
    rw [Fintype.card_fin, Fintype.card_fin]
    exact Nat.lt_succ_self _
  obtain ⟨i, j, hij, hfeq⟩ := Fintype.exists_ne_map_eq_of_card_lt
    (fun i : Fin (2 ^ 256 + 1) =>
      (⟨secretDigestNat i.val, secretDigestNat_lt i.val⟩ : Fin (2 ^ 256))) hcard
  have hval : secretDigestNat i.val = secretDigestNat j.val := congrArg Fin.val hfeq
  refine ⟨String.mk (List.replicate i.val 'a'), String.mk (List.replicate j.val 'a'),
    fun hs => hij (Fin.val_injective (replicateStr_inj hs)), ?_⟩
  rw [verify_ok_true_iff]
  exact secretSig_eq_of_digest_eq hval

end GlitchForge
